import Mathlib

/-!
Verification of the claude-code-project-template repository's behaviour.

The security core (command classifier, content scanner, risk aggregator,
automation trigger selector) ships as hook scripts inside the project
template; those scripts are not part of the `scripts/` sources, so the
definitions for them below are modelled from the specification and marked
as such.  The project-scaffolding scripts (`initialize_project.py`,
`validate_setup.py`, `detect_mcp_servers.py`) are embedded directly from
their source.
-/

/-- Python's `str.startswith`, embedded on the character list. -/
def pyStartswith (s pre : String) : Bool := pre.data.isPrefixOf s.data

/-- Python's `str.endswith`, embedded on the character list. -/
def pyEndswith (s suf : String) : Bool := suf.data.isSuffixOf s.data

/-- Contiguous-sublist (infix) test on lists. -/
def listInfixOf (sub : List Char) : List Char → Bool
  | [] => sub.isEmpty
  | c :: rest => sub.isPrefixOf (c :: rest) || listInfixOf sub rest

/-- Python's `sub in s` substring test, embedded on the character list. -/
def pyContains (s sub : String) : Bool := listInfixOf sub.data s.data

/-- Risk / severity levels used by decisions and findings. -/
inductive RiskLevel where
  | low | medium | high | critical
deriving DecidableEq, Repr

/-- Modelled from the spec: a custom rule carries a pattern (modelled as a
Boolean match function), a severity and a remediation text; the spec's Rule
shape has no approval field, so a matching custom rule can only flag the
command for approval at its severity. -/
structure CustomRule where
  applies : String → Bool
  severity : RiskLevel
  remediation : String

/-- Modelled from the spec: the merged rule set the Command Classifier
evaluates — safe commands (exact or prefix), safe patterns, the
caller-extended safe list, the dangerous first-token set, dangerous
patterns, the caller-extended dangerous list, the production flag and
custom rules. -/
structure ClassifierRules where
  safeCommands : List String
  safePatterns : List (String → Bool)
  extraSafe : List String
  dangerousCommands : List String
  dangerousPatterns : List (String → Bool)
  extraDangerous : List String
  production : Bool
  customRules : List CustomRule

/-- `ApprovalDecision` record from the spec's data model. -/
structure ApprovalDecision where
  command : String
  needs_approval : Bool
  auto_approve : Bool
  reason : String
  risk_level : RiskLevel
deriving Repr

/-- Exact or prefix match of a command against a command list. -/
def matchesList (cmd : String) (l : List String) : Bool :=
  l.any (fun s => cmd == s || pyStartswith cmd s)

/-- First whitespace-delimited token of a command line. -/
def firstToken (cmd : String) : String :=
  String.mk ((cmd.data.dropWhile (fun c => c == ' ')).takeWhile (fun c => !(c == ' ')))

/-- Write-operation keywords of the production guard (spec step 7). -/
def writeKeywords : List String :=
  ["write", "create", "update", "delete", "drop", "truncate"]

/-- Modelled from the spec: the Command Classifier's first-match-wins
precedence, steps 1–9 of section 4.2. -/
def classify (R : ClassifierRules) (cmd : String) : ApprovalDecision :=
  if matchesList cmd R.safeCommands then
    ⟨cmd, false, true, "safe command", .low⟩
  else if R.safePatterns.any (fun p => p cmd) then
    ⟨cmd, false, true, "matches safe pattern", .low⟩
  else if matchesList cmd R.extraSafe then
    ⟨cmd, false, true, "caller-extended safe command", .low⟩
  else if R.dangerousCommands.contains (firstToken cmd) then
    ⟨cmd, true, false, "dangerous command", .high⟩
  else if R.dangerousPatterns.any (fun p => p cmd) then
    ⟨cmd, true, false, "matches dangerous pattern", .high⟩
  else if matchesList cmd R.extraDangerous then
    ⟨cmd, true, false, "caller-extended dangerous command", .high⟩
  else if R.production && writeKeywords.any (fun kw => pyContains cmd kw) then
    ⟨cmd, true, false, "write operation in production", .high⟩
  else
    match R.customRules.find? (fun r => r.applies cmd) with
    | some r => ⟨cmd, true, false, r.remediation, r.severity⟩
    | none => ⟨cmd, true, false, "unmatched command requires approval", .medium⟩

/-- Modelled from the spec: default rule sets, pinned only by the spec's
scenarios (`git status` auto-approves, `rm …` is dangerous); patterns and
custom rules are empty by default and the context is not production. -/
def defaultRules : ClassifierRules :=
  { safeCommands := ["git status"]
    safePatterns := []
    extraSafe := []
    dangerousCommands := ["rm"]
    dangerousPatterns := []
    extraDangerous := []
    production := false
    customRules := [] }

example : (classify defaultRules "git status").auto_approve = true := by decide
example : (classify defaultRules "rm -rf /tmp/x").needs_approval = true := by decide
example : (classify defaultRules "ls -la").risk_level = RiskLevel.medium := by decide

/-- Rules used to exhibit the safe-over-dangerous precedence: the caller
extends the safe list with a command whose first token is dangerous. -/
def safeOverridesDangerousRules : ClassifierRules :=
  { defaultRules with extraSafe := ["rm -rf /tmp/x"] }

/-- C1: a command matching no safe entry (steps 1–3), no dangerous entry
(steps 4–6), no production write-guard (step 7) and no custom rule (step 8)
falls through to the fail-closed default: approval required at medium risk,
never auto-approved. -/
theorem classify_default_fail_closed (R : ClassifierRules) (cmd : String)
    (h1 : matchesList cmd R.safeCommands = false)
    (h2 : R.safePatterns.any (fun p => p cmd) = false)
    (h3 : matchesList cmd R.extraSafe = false)
    (h4 : R.dangerousCommands.contains (firstToken cmd) = false)
    (h5 : R.dangerousPatterns.any (fun p => p cmd) = false)
    (h6 : matchesList cmd R.extraDangerous = false)
    (h7 : (R.production && writeKeywords.any (fun kw => pyContains cmd kw)) = false)
    (h8 : R.customRules.find? (fun r => r.applies cmd) = none) :
    (classify R cmd).needs_approval = true ∧
    (classify R cmd).auto_approve = false ∧
    (classify R cmd).risk_level = RiskLevel.medium := by
  have h4' : ¬ firstToken cmd ∈ R.dangerousCommands := by simpa using h4
  simp [classify, h1, h2, h3, h4', h5, h6, h7, h8]

/-- Witness for `classify_default_fail_closed` at the default rules and the
command `ls -la`. -/
theorem classify_default_fail_closed_witness :
    (classify defaultRules "ls -la").needs_approval = true ∧
    (classify defaultRules "ls -la").auto_approve = false ∧
    (classify defaultRules "ls -la").risk_level = RiskLevel.medium :=
  classify_default_fail_closed defaultRules "ls -la"
    (by decide) (by decide) (by decide) (by decide)
    (by decide) (by decide) (by decide) (by rfl)

/-- C2 counterexample: a configuration override that adds a safe entry is
evaluated before the dangerous first-token check, so the command
`rm -rf /tmp/x`, whose first token `rm` is in the dangerous set, is
auto-approved and does not need approval. -/
theorem classify_dangerous_token_not_unconditional :
    safeOverridesDangerousRules.dangerousCommands.contains
      (firstToken "rm -rf /tmp/x") = true ∧
    (classify safeOverridesDangerousRules "rm -rf /tmp/x").needs_approval = false ∧
    (classify safeOverridesDangerousRules "rm -rf /tmp/x").auto_approve = true := by
  decide

/-- C2 amended: when the command's first token is in the dangerous set AND
the command matches none of the safe checks of steps 1–3, classification
requires approval at high risk; moreover overrides that only add dangerous
entries (to the first-token set or the extended dangerous list) cannot
change this. -/
theorem classify_dangerous_token_needs_approval (R : ClassifierRules) (cmd : String)
    (hd : R.dangerousCommands.contains (firstToken cmd) = true)
    (h1 : matchesList cmd R.safeCommands = false)
    (h2 : R.safePatterns.any (fun p => p cmd) = false)
    (h3 : matchesList cmd R.extraSafe = false) :
    ((classify R cmd).needs_approval = true ∧
      (classify R cmd).risk_level = RiskLevel.high) ∧
    ∀ moreDangerous moreExtra,
      (classify { R with
          dangerousCommands := R.dangerousCommands ++ moreDangerous,
          extraDangerous := R.extraDangerous ++ moreExtra } cmd).needs_approval = true ∧
      (classify { R with
          dangerousCommands := R.dangerousCommands ++ moreDangerous,
          extraDangerous := R.extraDangerous ++ moreExtra } cmd).risk_level = RiskLevel.high := by
  have hm : firstToken cmd ∈ R.dangerousCommands := by simpa using hd
  refine ⟨?_, ?_⟩
  · simp [classify, h1, h2, h3, hm]
  · intro moreDangerous moreExtra
    have hm' : firstToken cmd ∈ R.dangerousCommands ++ moreDangerous :=
      List.mem_append_left _ hm
    simp [classify, h1, h2, h3, hm']

/-- Witness for `classify_dangerous_token_needs_approval` at the default
rules and the command `rm -rf /tmp/x`. -/
theorem classify_dangerous_token_needs_approval_witness :
    ((classify defaultRules "rm -rf /tmp/x").needs_approval = true ∧
      (classify defaultRules "rm -rf /tmp/x").risk_level = RiskLevel.high) ∧
    ∀ moreDangerous moreExtra,
      (classify { defaultRules with
          dangerousCommands := defaultRules.dangerousCommands ++ moreDangerous,
          extraDangerous := defaultRules.extraDangerous ++ moreExtra }
        "rm -rf /tmp/x").needs_approval = true ∧
      (classify { defaultRules with
          dangerousCommands := defaultRules.dangerousCommands ++ moreDangerous,
          extraDangerous := defaultRules.extraDangerous ++ moreExtra }
        "rm -rf /tmp/x").risk_level = RiskLevel.high :=
  classify_dangerous_token_needs_approval defaultRules "rm -rf /tmp/x"
    (by decide) (by decide) (by decide) (by decide)

/-- C7: on every classification, `auto_approve` and `needs_approval` are
never simultaneously true, so `auto_approve = true` implies
`needs_approval = false`. -/
theorem classify_auto_approve_excludes_needs_approval
    (R : ClassifierRules) (cmd : String) :
    ((classify R cmd).auto_approve && (classify R cmd).needs_approval) = false := by
  unfold classify
  repeat' split
  all_goals rfl

/-- Severity counts of a `ScanReport`, one bucket per severity. -/
structure SeverityCounts where
  critical : Nat
  high : Nat
  medium : Nat
  low : Nat
deriving DecidableEq, Repr

/-- Modelled from the spec: severity weights `critical:25, high:15,
medium:5, low:2` summed against the counts. -/
def weightedTotal (c : SeverityCounts) : Nat :=
  25 * c.critical + 15 * c.high + 5 * c.medium + 2 * c.low

/-- Modelled from the spec: the Risk Aggregator's score
`max(0, 100 − Σ(count[severity] × weight[severity]))`; natural-number
subtraction truncates at zero, realizing the `max 0` clamp. -/
def aggregateScore (c : SeverityCounts) : Nat :=
  100 - weightedTotal c

/-- C3: the score is the clamped weighted formula, lies in `[0, 100]`, and
is monotonically non-increasing when any severity bucket's count grows. -/
theorem aggregateScore_formula_bounds_mono (c c' : SeverityCounts)
    (hc : c.critical ≤ c'.critical) (hh : c.high ≤ c'.high)
    (hm : c.medium ≤ c'.medium) (hl : c.low ≤ c'.low) :
    ((aggregateScore c : Int) =
      max 0 (100 - (25 * c.critical + 15 * c.high + 5 * c.medium + 2 * c.low : Int))) ∧
    aggregateScore c ≤ 100 ∧
    aggregateScore c' ≤ aggregateScore c := by
  unfold aggregateScore weightedTotal
  refine ⟨?_, ?_, ?_⟩
  · rcases Nat.le_total (25 * c.critical + 15 * c.high + 5 * c.medium + 2 * c.low) 100 with h | h
    · rw [max_eq_right (by omega)]
      omega
    · rw [max_eq_left (by omega)]
      omega
  · omega
  · omega

/-- Witness for `aggregateScore_formula_bounds_mono`: one critical and two
high findings score 45, adding a medium finding lowers it to 40. -/
theorem aggregateScore_formula_bounds_mono_witness :
    ((aggregateScore ⟨1, 2, 0, 0⟩ : Int) =
      max 0 (100 - (25 * (⟨1, 2, 0, 0⟩ : SeverityCounts).critical +
        15 * (⟨1, 2, 0, 0⟩ : SeverityCounts).high +
        5 * (⟨1, 2, 0, 0⟩ : SeverityCounts).medium +
        2 * (⟨1, 2, 0, 0⟩ : SeverityCounts).low : Int))) ∧
    aggregateScore ⟨1, 2, 0, 0⟩ ≤ 100 ∧
    aggregateScore ⟨1, 2, 1, 0⟩ ≤ aggregateScore ⟨1, 2, 0, 0⟩ :=
  aggregateScore_formula_bounds_mono ⟨1, 2, 0, 0⟩ ⟨1, 2, 1, 0⟩
    (by decide) (by decide) (by decide) (by decide)

/-- Modelled from the spec: redaction of a matched secret value on its
character list — values of at most 8 characters become a full mask, longer
values keep their first and last 3 characters and mask the middle. -/
def redactChars (l : List Char) : List Char :=
  if l.length ≤ 8 then List.replicate l.length '*'
  else l.take 3 ++ List.replicate (l.length - 6) '*' ++ l.drop (l.length - 3)

/-- Modelled from the spec: redaction of a matched secret value before it
is stored as Finding evidence. -/
def redactValue (v : String) : String := String.mk (redactChars v.data)

/-- Unfolding of `redactChars` on long values. -/
theorem redactChars_long (l : List Char) (h : ¬ l.length ≤ 8) :
    redactChars l =
      l.take 3 ++ List.replicate (l.length - 6) '*' ++ l.drop (l.length - 3) :=
  if_neg h

/-- The first 3 stored characters of a long redacted value are the value's
own first 3 characters. -/
theorem redactChars_take3 (l : List Char) (h : ¬ l.length ≤ 8) :
    (redactChars l).take 3 = l.take 3 := by
  have h3 : (l.take 3).length = 3 := by rw [List.length_take]; omega
  rw [redactChars_long l h,
    List.take_append_of_le_length (by rw [List.length_append, h3]; omega),
    List.take_append_of_le_length (by rw [h3]),
    List.take_take]
  simp

/-- The middle of a long redacted value is entirely the mask character. -/
theorem redactChars_middle_masked (l : List Char) (h : ¬ l.length ≤ 8) :
    ∀ c ∈ ((redactChars l).drop 3).take (l.length - 6), c = '*' := by
  intro c hc
  have h3 : (l.take 3).length = 3 := by rw [List.length_take]; omega
  rw [redactChars_long l h,
    List.drop_append_of_le_length (by rw [List.length_append, h3]; omega),
    List.drop_left' h3,
    List.take_append_of_le_length (by rw [List.length_replicate]),
    List.take_replicate] at hc
  exact List.eq_of_mem_replicate hc

/-- C4: stored evidence is redacted — short values (≤8 characters) are
fully masked, a value longer than 8 reveals at most its first 3 and last 3
characters: every other stored character is the mask, and any two long
values agreeing on length, first 3 and last 3 characters yield identical
evidence. -/
theorem redactValue_masks_and_hides (v w : String)
    (hv : 8 < v.data.length) (hw : 8 < w.data.length)
    (hlen : v.data.length = w.data.length)
    (hfirst : v.data.take 3 = w.data.take 3)
    (hlast : v.data.drop (v.data.length - 3) = w.data.drop (w.data.length - 3)) :
    (∀ u : String, u.data.length ≤ 8 →
      ∀ c ∈ (redactValue u).data, c = '*') ∧
    (redactValue v).data.take 3 = v.data.take 3 ∧
    (∀ c ∈ ((redactValue v).data.drop 3).take (v.data.length - 6), c = '*') ∧
    redactValue v = redactValue w := by
  have hv' : ¬ v.data.length ≤ 8 := by omega
  have hw' : ¬ w.data.length ≤ 8 := by omega
  refine ⟨?_, ?_, ?_, ?_⟩
  · intro u hu c hc
    have : (redactValue u).data = List.replicate u.data.length '*' := by
      show redactChars u.data = _
      unfold redactChars
      rw [if_pos hu]
    rw [this] at hc
    exact List.eq_of_mem_replicate hc
  · show (redactChars v.data).take 3 = v.data.take 3
    exact redactChars_take3 v.data hv'
  · show ∀ c ∈ ((redactChars v.data).drop 3).take (v.data.length - 6), c = '*'
    exact redactChars_middle_masked v.data hv'
  · show String.mk (redactChars v.data) = String.mk (redactChars w.data)
    rw [hlen] at hlast
    rw [redactChars_long v.data hv', redactChars_long w.data hw',
      hfirst, hlen, hlast]

/-- Witness for `redactValue_masks_and_hides` on two 10-character secrets
sharing first 3 and last 3 characters. -/
theorem redactValue_masks_and_hides_witness :
    (∀ u : String, u.data.length ≤ 8 →
      ∀ c ∈ (redactValue u).data, c = '*') ∧
    (redactValue "abcXXXXxyz").data.take 3 = ("abcXXXXxyz" : String).data.take 3 ∧
    (∀ c ∈ ((redactValue "abcXXXXxyz").data.drop 3).take
        (("abcXXXXxyz" : String).data.length - 6), c = '*') ∧
    redactValue "abcXXXXxyz" = redactValue "abcYYYYxyz" :=
  redactValue_masks_and_hides "abcXXXXxyz" "abcYYYYxyz"
    (by decide) (by decide) (by decide) (by decide) (by decide)

/-- Modelled from the spec: the CooldownRecord store of the Automation
Trigger Selector — one `(reviewer_id, last_triggered_at)` record per
reviewer, newest first; timestamps are minutes. -/
def lastTriggered (recs : List (String × Nat)) (r : String) : Option Nat :=
  (recs.find? (fun p => p.1 == r)).map (fun p => p.2)

/-- Modelled from the spec: a reviewer is in cooldown when it has a
CooldownRecord within the last 30 minutes. -/
def inCooldown (recs : List (String × Nat)) (r : String) (now : Nat) : Bool :=
  match lastTriggered recs r with
  | some t => now < t + 30
  | none => false

/-- Reviewers allowed to auto-trigger in an unattended/CI context. -/
def ciAllowlist : List String := ["test-engineer", "security-auditor"]

/-- Modelled from the spec: a recommended reviewer is actually triggered
only if its auto-trigger flag is enabled, it has no CooldownRecord within
the last 30 minutes, and — in CI — it is on the restricted allow-list. -/
def actuallyTriggered (autoTrigger : String → Bool) (ci : Bool)
    (recs : List (String × Nat)) (r : String) (now : Nat) : Bool :=
  autoTrigger r && !(inCooldown recs r now) && (!ci || ciAllowlist.contains r)

/-- Modelled from the spec: triggering a reviewer records its cooldown
timestamp. -/
def recordTrigger (recs : List (String × Nat)) (r : String) (t : Nat) :
    List (String × Nat) :=
  (r, t) :: recs

/-- C6: after a reviewer is triggered at time `T`, it is not retriggered at
`T+29` minutes; at `T+31` minutes the cooldown has expired, so (outside CI,
with its auto-trigger flag enabled) it is triggered again; and in general a
reviewer is actually triggered only when it has no CooldownRecord within
the last 30 minutes. -/
theorem cooldown_blocks_29_allows_31 (autoTrigger : String → Bool) (ci : Bool)
    (recs : List (String × Nat)) (r : String) (T now : Nat)
    (henabled : autoTrigger r = true) (hci : ci = false) :
    actuallyTriggered autoTrigger ci (recordTrigger recs r T) r (T + 29) = false ∧
    actuallyTriggered autoTrigger ci (recordTrigger recs r T) r (T + 31) = true ∧
    (actuallyTriggered autoTrigger ci recs r now = true →
      inCooldown recs r now = false) := by
  have hlast : lastTriggered (recordTrigger recs r T) r = some T := by
    simp [lastTriggered, recordTrigger]
  refine ⟨?_, ?_, ?_⟩
  · have : inCooldown (recordTrigger recs r T) r (T + 29) = true := by
      simp [inCooldown, hlast]
    simp [actuallyTriggered, this]
  · have : inCooldown (recordTrigger recs r T) r (T + 31) = false := by
      simp [inCooldown, hlast]
    simp [actuallyTriggered, this, henabled, hci]
  · intro h
    cases hcool : inCooldown recs r now
    · rfl
    · rw [actuallyTriggered, hcool] at h
      simp at h

/-- Witness for `cooldown_blocks_29_allows_31` at a concrete reviewer,
empty history and trigger time 0. -/
theorem cooldown_blocks_29_allows_31_witness :
    actuallyTriggered (fun _ => true) false
      (recordTrigger [] "code-reviewer" 0) "code-reviewer" 29 = false ∧
    actuallyTriggered (fun _ => true) false
      (recordTrigger [] "code-reviewer" 0) "code-reviewer" 31 = true ∧
    (actuallyTriggered (fun _ => true) false [] "code-reviewer" 0 = true →
      inCooldown [] "code-reviewer" 0 = false) := by
  have h := cooldown_blocks_29_allows_31 (fun _ => true) false [] "code-reviewer"
    0 0 (by rfl) (by rfl)
  simpa using h

/-- Parse outcome of `.claude/settings.json`: invalid JSON or a parsed
object with its top-level keys. -/
inductive SettingsJson where
  | invalid
  | valid (keys : List String)

/-- The filesystem facts `SetupValidator.check_claude_configuration`
consults: the settings file (absent, invalid or parsed) and the `CLAUDE.md`
content (absent or its text length). -/
structure ClaudeConfigFS where
  settingsJson : Option SettingsJson
  claudeMdLength : Option Nat

/-- Outcome of one validator check: the returned Bool plus the issues and
warnings it appended. -/
structure CheckOutcome where
  ok : Bool
  issues : List String
  warnings : List String
deriving Repr

/-- Required top-level settings keys checked by the validator. -/
def requiredSettingsKeys : List String := ["auto_approval", "hooks", "agents"]

/-- `SetupValidator.check_claude_configuration`, embedded from
`scripts/validate_setup.py`: invalid JSON in `.claude/settings.json` is an
issue and fails the check; a missing settings file is only a warning; a
missing `CLAUDE.md` fails the check; a short `CLAUDE.md` is a warning. -/
def check_claude_configuration (fs : ClaudeConfigFS) : CheckOutcome :=
  match fs.settingsJson with
  | some SettingsJson.invalid =>
      ⟨false, ["Invalid JSON in .claude/settings.json"], []⟩
  | some (SettingsJson.valid keys) =>
      let missing := requiredSettingsKeys.filter (fun k => !(keys.contains k))
      let warnings0 := if missing.isEmpty then [] else ["Missing settings keys"]
      match fs.claudeMdLength with
      | some len =>
          ⟨true, [], if len < 100 then warnings0 ++ ["CLAUDE.md seems too short"] else warnings0⟩
      | none => ⟨false, ["CLAUDE.md not found"], warnings0⟩
  | none =>
      let warnings0 := ["No .claude/settings.json found (using defaults)"]
      match fs.claudeMdLength with
      | some len =>
          ⟨true, [], if len < 100 then warnings0 ++ ["CLAUDE.md seems too short"] else warnings0⟩
      | none => ⟨false, ["CLAUDE.md not found"], warnings0⟩

/-- Modelled from the spec: the caller-supplied command-policy
configuration as the Rule Store sees it — either malformed (a ConfigError)
or well-formed extensions of the safe and dangerous lists. -/
inductive RawPolicyConfig where
  | malformed
  | wellFormed (extraSafe extraDangerous : List String)

/-- Modelled from the spec: the Rule Store's configuration loading — a
missing (`none`) or malformed configuration falls back to the built-in
defaults and always returns a usable rule set to the caller (a ConfigError
is never fatal); well-formed extensions are appended onto the defaults. -/
def loadPolicyConfig : Option RawPolicyConfig → ClassifierRules
  | none => defaultRules
  | some RawPolicyConfig.malformed => defaultRules
  | some (RawPolicyConfig.wellFormed es ed) =>
      { defaultRules with
          extraSafe := defaultRules.extraSafe ++ es,
          extraDangerous := defaultRules.extraDangerous ++ ed }

/-- C5: missing or malformed caller configuration falls back to the
built-in defaults (never fatal to the caller), yet the setup validator's
configuration check returns failure on invalid JSON in
`.claude/settings.json`, while a missing settings file (with `CLAUDE.md`
present) merely warns and passes. -/
theorem config_fallback_vs_validator (fs fs' : ClaudeConfigFS) (len : Nat)
    (hinvalid : fs.settingsJson = some SettingsJson.invalid)
    (hmissing : fs'.settingsJson = none)
    (hmd : fs'.claudeMdLength = some len) :
    loadPolicyConfig none = defaultRules ∧
    loadPolicyConfig (some RawPolicyConfig.malformed) = defaultRules ∧
    (check_claude_configuration fs).ok = false ∧
    (check_claude_configuration fs').ok = true ∧
    (check_claude_configuration fs').warnings ≠ [] := by
  refine ⟨rfl, rfl, ?_, ?_, ?_⟩
  · rw [check_claude_configuration, hinvalid]
  · rw [check_claude_configuration, hmissing, hmd]
  · rw [check_claude_configuration, hmissing, hmd]
    dsimp only
    split <;> simp

/-- Witness for `config_fallback_vs_validator`: a settings file with broken
JSON fails the check; a project with no settings file and a 200-character
`CLAUDE.md` passes it with a warning. -/
theorem config_fallback_vs_validator_witness :
    loadPolicyConfig none = defaultRules ∧
    loadPolicyConfig (some RawPolicyConfig.malformed) = defaultRules ∧
    (check_claude_configuration ⟨some SettingsJson.invalid, some 200⟩).ok = false ∧
    (check_claude_configuration ⟨none, some 200⟩).ok = true ∧
    (check_claude_configuration ⟨none, some 200⟩).warnings ≠ [] :=
  config_fallback_vs_validator ⟨some SettingsJson.invalid, some 200⟩
    ⟨none, some 200⟩ 200 rfl rfl rfl

/-- The top-level copy loop of `ProjectInitializer.copy_template_files`:
every template entry whose name starts with `.git` is skipped. -/
def copySkipsGit (entries : List String) : List String :=
  entries.filter (fun n => !(pyStartswith n ".git"))

/-- The template-file rename table of `copy_template_files`, in source
order. -/
def templateRenames : List (String × String) :=
  [("CLAUDE.md.template", "CLAUDE.md"),
   (".gitignore.template", ".gitignore"),
   ("pyproject.toml.template", "pyproject.toml"),
   (".mcp.json.template", ".mcp.json")]

/-- One rename step: if the template name exists in the project directory
it is renamed to its final name, otherwise nothing happens. -/
def renameStep (names : List String) (tr : String × String) : List String :=
  if names.contains tr.1 then
    names.map (fun n => if n == tr.1 then tr.2 else n)
  else names

/-- `ProjectInitializer.copy_template_files` at the level of top-level
entry names: copy everything except `.git*` entries, then apply the rename
table. -/
def copy_template_files (templateEntries : List String) : List String :=
  templateRenames.foldl renameStep (copySkipsGit templateEntries)

/-- Required directories of `SetupValidator.check_project_structure`. -/
def required_dirs : List String :=
  [".claude", ".claude/agents", ".claude/commands", ".claude/hooks",
   "src", "tests", "docs"]

/-- Required files of `SetupValidator.check_project_structure`. -/
def required_files : List String := ["CLAUDE.md", "README.md", ".gitignore"]

/-- `SetupValidator.check_project_structure`, embedded from
`scripts/validate_setup.py`: passes exactly when every required directory
and file exists. -/
def check_project_structure (present : List String) : Bool :=
  required_dirs.all (fun d => present.contains d) &&
    required_files.all (fun f => present.contains f)

/-- A rename whose final name is not `bad` cannot introduce `bad`. -/
theorem not_mem_renameStep (l : List String) (t f bad : String)
    (hbad : bad ∉ l) (hne : f ≠ bad) : bad ∉ renameStep l (t, f) := by
  unfold renameStep
  split
  · intro hmem
    rcases List.mem_map.1 hmem with ⟨n, hn, he⟩
    by_cases hb : n == t
    · rw [if_pos hb] at he
      exact hne he
    · rw [if_neg hb] at he
      exact hbad (he ▸ hn)
  · exact hbad

/-- A rename whose template name is absent does nothing. -/
theorem renameStep_skip (l : List String) (t f : String) (h : t ∉ l) :
    renameStep l (t, f) = l := by
  unfold renameStep
  rw [if_neg]
  simpa using h

/-- C8: `copy_template_files` skips every top-level `.git*` entry —
including `.gitignore.template` — so the `.gitignore.template → .gitignore`
rename never fires and the fresh project has no top-level `.gitignore`,
even though `check_project_structure` requires `.gitignore`; the structure
check therefore fails on the fresh project however it is later extended
with non-`.gitignore` entries. -/
theorem copy_template_files_drops_gitignore (entries extra : List String)
    (hextra : ".gitignore" ∉ extra) :
    pyStartswith ".gitignore.template" ".git" = true ∧
    ".gitignore" ∉ copy_template_files entries ∧
    ".gitignore" ∈ required_files ∧
    check_project_structure (copy_template_files entries ++ extra) = false := by
  have hskip : ∀ bad : String, pyStartswith bad ".git" = true →
      bad ∉ copySkipsGit entries := by
    intro bad hb hmem
    have := (List.mem_filter.1 hmem).2
    rw [hb] at this
    simp at this
  have hgi0 : ".gitignore" ∉ copySkipsGit entries := hskip _ (by decide)
  have hgt0 : ".gitignore.template" ∉ copySkipsGit entries := hskip _ (by decide)
  have hexpand : copy_template_files entries =
      renameStep (renameStep (renameStep (renameStep (copySkipsGit entries)
        ("CLAUDE.md.template", "CLAUDE.md"))
        (".gitignore.template", ".gitignore"))
        ("pyproject.toml.template", "pyproject.toml"))
        (".mcp.json.template", ".mcp.json") := rfl
  have hgi1 : ".gitignore" ∉
      renameStep (copySkipsGit entries) ("CLAUDE.md.template", "CLAUDE.md") :=
    not_mem_renameStep _ _ _ _ hgi0 (by decide)
  have hgt1 : ".gitignore.template" ∉
      renameStep (copySkipsGit entries) ("CLAUDE.md.template", "CLAUDE.md") :=
    not_mem_renameStep _ _ _ _ hgt0 (by decide)
  have hstep2 : renameStep
      (renameStep (copySkipsGit entries) ("CLAUDE.md.template", "CLAUDE.md"))
      (".gitignore.template", ".gitignore") =
      renameStep (copySkipsGit entries) ("CLAUDE.md.template", "CLAUDE.md") :=
    renameStep_skip _ _ _ hgt1
  have hgi3 : ".gitignore" ∉ copy_template_files entries := by
    rw [hexpand, hstep2]
    exact not_mem_renameStep _ _ _ _
      (not_mem_renameStep _ _ _ _ hgi1 (by decide)) (by decide)
  have hgi4 : ".gitignore" ∉ copy_template_files entries ++ extra := by
    rw [List.mem_append]
    rintro (h | h)
    · exact hgi3 h
    · exact hextra h
  have hc : (copy_template_files entries ++ extra).contains ".gitignore" = false := by
    simpa using hgi4
  refine ⟨by decide, hgi3, by decide, ?_⟩
  have hall : required_files.all
      (fun f => (copy_template_files entries ++ extra).contains f) = false := by
    simp only [required_files, List.all_cons, List.all_nil, hc, Bool.and_true,
      Bool.and_false, Bool.false_and]
  rw [check_project_structure, hall, Bool.and_false]

/-- Witness for `copy_template_files_drops_gitignore` on a concrete
template listing. -/
theorem copy_template_files_drops_gitignore_witness :
    pyStartswith ".gitignore.template" ".git" = true ∧
    ".gitignore" ∉ copy_template_files
      ["CLAUDE.md.template", ".gitignore.template", "src", "README.md"] ∧
    ".gitignore" ∈ required_files ∧
    check_project_structure (copy_template_files
      ["CLAUDE.md.template", ".gitignore.template", "src", "README.md"] ++
        ["docs/CHANGELOG.md"]) = false :=
  copy_template_files_drops_gitignore
    ["CLAUDE.md.template", ".gitignore.template", "src", "README.md"]
    ["docs/CHANGELOG.md"] (by decide)

/-- The intermediate text of `ProjectInitializer.sanitize_name`: lowercase,
spaces and hyphens mapped to underscores, every other non-alphanumeric
character removed. -/
def sanitizedCore (name : String) : List Char :=
  ((name.data.map Char.toLower).map
      (fun c => if c == ' ' || c == '-' then '_' else c)).filter
    (fun c => c.isAlphanum || c == '_')

/-- `ProjectInitializer.sanitize_name`, embedded from
`scripts/initialize_project.py`: a leading digit is guarded with a
`project_` prefix and an empty result falls back to `my_project`. -/
def sanitize_name (name : String) : String :=
  match sanitizedCore name with
  | [] => "my_project"
  | c :: cs =>
      if c.isDigit then String.mk ("project_".data ++ (c :: cs))
      else String.mk (c :: cs)

/-- Every character of the sanitized core is alphanumeric or an
underscore. -/
theorem sanitizedCore_chars (name : String) :
    ∀ c ∈ sanitizedCore name, c.isAlphanum = true ∨ c = '_' := by
  intro c hc
  have hp := (List.mem_filter.1 hc).2
  rcases Bool.or_eq_true _ _ |>.mp hp with h | h
  · exact Or.inl h
  · exact Or.inr (by simpa using h)

/-- C9: `sanitize_name` always returns a non-empty string of alphanumerics
and underscores whose first character is not a digit; an empty sanitized
core falls back to `my_project`, and a core starting with a digit gets the
`project_` prefix. -/
theorem sanitize_name_spec (name : String) :
    sanitize_name name ≠ "" ∧
    (∀ c ∈ (sanitize_name name).data, c.isAlphanum = true ∨ c = '_') ∧
    (∀ c, (sanitize_name name).data.head? = some c → c.isDigit = false) ∧
    (sanitizedCore name = [] → sanitize_name name = "my_project") ∧
    (∀ c cs, sanitizedCore name = c :: cs → c.isDigit = true →
      sanitize_name name = String.mk ("project_".data ++ sanitizedCore name)) := by
  cases h : sanitizedCore name with
  | nil =>
    have hs : sanitize_name name = "my_project" := by
      unfold sanitize_name
      rw [h]
    rw [hs]
    refine ⟨by decide, by decide, ?_, fun _ => rfl, ?_⟩
    · intro c hc
      rw [show ("my_project" : String).data.head? = some 'm' from rfl] at hc
      cases hc
      decide
    · intro c cs he
      exact absurd he.symm (List.cons_ne_nil c cs)
  | cons c cs =>
    have hchars : ∀ x ∈ c :: cs, x.isAlphanum = true ∨ x = '_' := by
      rw [← h]
      exact sanitizedCore_chars name
    by_cases hd : c.isDigit = true
    · have hs : sanitize_name name = String.mk ("project_".data ++ (c :: cs)) := by
        unfold sanitize_name
        rw [h]
        exact if_pos hd
      rw [hs]
      refine ⟨?_, ?_, ?_, ?_, ?_⟩
      · intro he
        have := congrArg String.data he
        simp at this
      · intro x hx
        rcases List.mem_append.1 hx with hx | hx
        · have hproj : ∀ y ∈ ("project_" : String).data,
              y.isAlphanum = true ∨ y = '_' := by decide
          exact hproj x hx
        · exact hchars x hx
      · intro x hx
        rw [show (String.mk ("project_".data ++ (c :: cs))).data.head? = some 'p'
          from rfl] at hx
        cases hx
        decide
      · intro h0
        exact absurd h0 (List.cons_ne_nil c cs)
      · intro c' cs' _ _
        rfl
    · have hs : sanitize_name name = String.mk (c :: cs) := by
        unfold sanitize_name
        rw [h]
        exact if_neg hd
      rw [hs]
      refine ⟨?_, ?_, ?_, ?_, ?_⟩
      · intro he
        have := congrArg String.data he
        simp at this
      · exact hchars
      · intro x hx
        have : x = c := by
          rw [show (String.mk (c :: cs)).data.head? = some c from rfl] at hx
          cases hx
          rfl
        rw [this]
        exact Bool.not_eq_true _ |>.mp hd
      · intro h0
        exact absurd h0 (List.cons_ne_nil c cs)
      · intro c' cs' he hd'
        injection he with h1 h2
        rw [← h1] at hd'
        exact absurd hd' hd

/-- Witness for `sanitize_name_spec` at a name that exercises lowering,
replacement, filtering and the digit guard. -/
theorem sanitize_name_spec_witness :
    sanitize_name "9 Lives-Project!" ≠ "" ∧
    (∀ c ∈ (sanitize_name "9 Lives-Project!").data, c.isAlphanum = true ∨ c = '_') ∧
    (∀ c, (sanitize_name "9 Lives-Project!").data.head? = some c →
      c.isDigit = false) ∧
    (sanitizedCore "9 Lives-Project!" = [] →
      sanitize_name "9 Lives-Project!" = "my_project") ∧
    (∀ c cs, sanitizedCore "9 Lives-Project!" = c :: cs → c.isDigit = true →
      sanitize_name "9 Lives-Project!" =
        String.mk ("project_".data ++ sanitizedCore "9 Lives-Project!")) :=
  sanitize_name_spec "9 Lives-Project!"

/-- One entry of the `KNOWN_MCP_SERVERS` table from
`scripts/detect_mcp_servers.py`: the server's short name, the `env` mapping
of its `config_template` (key-value pairs), and its `requires_env` list. -/
structure McpServerInfo where
  name : String
  envTemplate : List (String × String)
  requiresEnv : List String

/-- The `KNOWN_MCP_SERVERS` table, embedded from
`scripts/detect_mcp_servers.py`: env-mapping keys are bare variable names;
the `$\x7b...\x7d` placeholder form appears only in the values. -/
def KNOWN_MCP_SERVERS : List (String × McpServerInfo) :=
  [("@modelcontextprotocol/server-filesystem", ⟨"filesystem", [], []⟩),
   ("@modelcontextprotocol/server-git", ⟨"git", [], []⟩),
   ("@modelcontextprotocol/server-github",
     ⟨"github", [("GITHUB_TOKEN", "$\x7bGITHUB_TOKEN\x7d")], ["GITHUB_TOKEN"]⟩),
   ("@modelcontextprotocol/server-memory", ⟨"memory", [], []⟩),
   ("@modelcontextprotocol/server-postgres",
     ⟨"postgres", [("DATABASE_URL", "$\x7bDATABASE_URL\x7d")], ["DATABASE_URL"]⟩),
   ("@modelcontextprotocol/server-slack",
     ⟨"slack", [("SLACK_TOKEN", "$\x7bSLACK_TOKEN\x7d")], ["SLACK_TOKEN"]⟩),
   ("@modelcontextprotocol/server-google-drive",
     ⟨"google-drive",
       [("GOOGLE_CLIENT_ID", "$\x7bGOOGLE_CLIENT_ID\x7d"),
        ("GOOGLE_CLIENT_SECRET", "$\x7bGOOGLE_CLIENT_SECRET\x7d")],
       ["GOOGLE_CLIENT_ID", "GOOGLE_CLIENT_SECRET"]⟩),
   ("mcp-server-sqlite", ⟨"sqlite", [], []⟩)]

/-- The placeholder scan of `create_env_template` over one server's env
mapping: a key is collected only when it starts with `$\x7b` and ends with
`\x7d`, stripped of those delimiters. -/
def envPlaceholders (env : List (String × String)) : List String :=
  env.filterMap (fun kv =>
    if pyStartswith kv.1 "$\x7b" && pyEndswith kv.1 "\x7d" then
      some (String.mk ((kv.1.data.drop 2).dropLast))
    else none)

/-- The environment-variable set `create_env_template` collects over all
configured servers. -/
def placeholderEnvVars (servers : List (String × List (String × String))) :
    List String :=
  servers.foldl (fun acc s => acc ++ envPlaceholders s.2) []

/-- `create_env_template`, embedded from `scripts/detect_mcp_servers.py`:
the `.env.example` content is written only when the collected variable set
is non-empty (`none` = no file written). -/
def create_env_template (servers : List (String × List (String × String))) :
    Option (List String) :=
  if (placeholderEnvVars servers).isEmpty then none
  else some (placeholderEnvVars servers)

/-- The per-package step of `generate_mcp_config`: look the package up in
the available-server table; a server requiring env variables may be skipped
interactively, otherwise its name and `config_template` env mapping enter
the configuration. -/
def serverFromPackage (available : List (String × McpServerInfo))
    (skip : String → Bool) (pkg : String) :
    Option (String × List (String × String)) :=
  (available.find? (fun e => e.1 == pkg)).bind
    (fun e =>
      if !e.2.requiresEnv.isEmpty && skip pkg then none
      else some (e.2.name, e.2.envTemplate))

/-- The `servers` mapping `generate_mcp_config` builds from the selected
packages. -/
def generate_mcp_servers (selected : List String)
    (available : List (String × McpServerInfo)) (skip : String → Bool) :
    List (String × List (String × String)) :=
  selected.filterMap (serverFromPackage available skip)

/-- No entry of the built-in server table has an env key in placeholder
form. -/
theorem known_env_no_placeholders :
    ∀ e ∈ KNOWN_MCP_SERVERS, envPlaceholders e.2.envTemplate = [] := by
  decide

/-- Folding the placeholder scan over servers that each contribute nothing
leaves the accumulator unchanged. -/
theorem placeholderEnvVars_aux (servers : List (String × List (String × String))) :
    (∀ s ∈ servers, envPlaceholders s.2 = []) →
    ∀ acc : List String,
      servers.foldl (fun a s => a ++ envPlaceholders s.2) acc = acc := by
  induction servers with
  | nil => intro _ acc; rfl
  | cons s rest ih =>
    intro h acc
    rw [List.foldl_cons, h s (List.mem_cons_self s rest), List.append_nil]
    exact ih (fun t ht => h t (List.mem_cons_of_mem s ht)) acc

/-- C10: for every configuration generated from the built-in
`KNOWN_MCP_SERVERS` table — whatever packages are selected and whatever
servers are interactively skipped — the collected environment-variable set
is empty, so `create_env_template` writes no `.env.example` file. -/
theorem create_env_template_writes_nothing (selected : List String)
    (available : List (String × McpServerInfo)) (skip : String → Bool)
    (hav : ∀ e ∈ available, e ∈ KNOWN_MCP_SERVERS) :
    placeholderEnvVars (generate_mcp_servers selected available skip) = [] ∧
    create_env_template (generate_mcp_servers selected available skip) = none := by
  have hnil : ∀ s ∈ generate_mcp_servers selected available skip,
      envPlaceholders s.2 = [] := by
    intro s hs
    rcases List.mem_filterMap.1 hs with ⟨pkg, _, hps⟩
    unfold serverFromPackage at hps
    cases hfind : available.find? (fun e => e.1 == pkg) with
    | none =>
      rw [hfind] at hps
      exact Option.noConfusion hps
    | some e =>
      rw [hfind] at hps
      have hps' : (if (!e.2.requiresEnv.isEmpty && skip pkg) = true then none
          else some (e.2.name, e.2.envTemplate)) = some s := hps
      by_cases hskip : (!e.2.requiresEnv.isEmpty && skip pkg) = true
      · rw [if_pos hskip] at hps'
        exact Option.noConfusion hps'
      · rw [if_neg hskip] at hps'
        injection hps' with he'
        rw [← he']
        exact known_env_no_placeholders e (hav e (List.mem_of_find?_eq_some hfind))
  have h1 : placeholderEnvVars (generate_mcp_servers selected available skip) = [] :=
    placeholderEnvVars_aux _ hnil []
  refine ⟨h1, ?_⟩
  rw [create_env_template, h1]
  rfl

/-- Witness for `create_env_template_writes_nothing`: selecting the github
server from the full built-in table, skipping nothing. -/
theorem create_env_template_writes_nothing_witness :
    placeholderEnvVars (generate_mcp_servers
      ["@modelcontextprotocol/server-github"] KNOWN_MCP_SERVERS
      (fun _ => false)) = [] ∧
    create_env_template (generate_mcp_servers
      ["@modelcontextprotocol/server-github"] KNOWN_MCP_SERVERS
      (fun _ => false)) = none :=
  create_env_template_writes_nothing
    ["@modelcontextprotocol/server-github"] KNOWN_MCP_SERVERS
    (fun _ => false) (fun _ he => he)
